import Mathlib

/-!
Shallow embedding of the scoring-agent worker (src/index.ts).

The program is a fan-out/fan-in evaluation pipeline: `createEvaluationTasks`
builds four fixed tasks, `evaluateTask` calls a text-generation backend and
parses its raw answer through a five-strategy regex cascade,
`integrateEvaluations` sums the scores and renders a report (re-parsing a
model-generated summary with per-field regexes), and `evaluateHackathonIdea`
orchestrates the whole request.

The generation backend is external (network I/O); it is modelled as an
explicit outcome parameter of type `Except String String`: `.ok text` is the
raw model completion, `.error msg` is a thrown exception whose message is
`msg` (the code reads `error.message`, or the literal "Unknown error" for
non-Error throwables; we model the extracted message directly).

JavaScript strings are modelled as `List Char` / `String`; JavaScript
numbers as `Int` (every number this program manipulates is an integer:
digit captures via `parseInt`, `Math.floor` results, and the constant
maxScores 20/30; IEEE-754 rounding never shows through at these values).
-/

namespace ScoringAgent

/-! ### Character classes of the JavaScript regexes -/

/-- Left brace character (written via its code point). -/
def lb : Char := Char.ofNat 123

/-- Right brace character (written via its code point). -/
def rb : Char := Char.ofNat 125

/-- Apostrophe (single quote) character. -/
def sq : Char := Char.ofNat 39

/-- JavaScript whitespace: the set matched by `\s`, `String.prototype.trim`
and skipped by `parseInt` (WhiteSpace ∪ LineTerminator). -/
def isJsWs (c : Char) : Bool :=
  c = ' ' ∨ c = '\t' ∨ c = '\n' ∨ c = '\r' ∨ c = '\x0b' ∨ c = '\x0c' ∨
  c = '\u00a0' ∨ c = '\u1680' ∨ ('\u2000' ≤ c ∧ c ≤ '\u200a') ∨
  c = '\u2028' ∨ c = '\u2029' ∨ c = '\u202f' ∨ c = '\u205f' ∨
  c = '\u3000' ∨ c = '\ufeff'

/-- The class `[:\s]` used by the loose extraction patterns. -/
def isColonWs (c : Char) : Bool := c = ':' ∨ isJsWs c

/-- Decimal digit, the `\d` class. -/
def isDig (c : Char) : Bool := '0' ≤ c ∧ c ≤ '9'

/-- The `.` class of a non-multiline JavaScript regex: anything but a
line terminator. -/
def isDot (c : Char) : Bool :=
  ¬ (c = '\n' ∨ c = '\r' ∨ c = '\u2028' ∨ c = '\u2029')

/-- Value of a digit list read in base 10 (semantics of `parseInt` on a
`(\d+)` capture; exact arithmetic, the program's values stay far below
2^53 after clamping). -/
def digitsToNat (ds : List Char) : Nat :=
  ds.foldl (fun a c => a * 10 + (c.toNat - 48)) 0

/-! ### Generic scanning helpers -/

/-- `matchLit lit cs` consumes the literal `lit` from the front of `cs`. -/
def matchLit : List Char → List Char → Option (List Char)
  | [], cs => some cs
  | _ :: _, [] => none
  | l :: ls, c :: cs => if c = l then matchLit ls cs else none

/-- ASCII-case-insensitive literal match (`lit` given in lower case); this
is the canonicalisation a non-`u`-flag JavaScript `/i` regex performs on
ASCII letters. -/
def matchLitCI : List Char → List Char → Option (List Char)
  | [], cs => some cs
  | _ :: _, [] => none
  | l :: ls, c :: cs => if c.toLower = l then matchLitCI ls cs else none

/-- Leftmost-match search: try `f` at every start position, left to right. -/
def scanFirst (f : List Char → Option α) : List Char → Option α
  | [] => f []
  | c :: cs =>
    match f (c :: cs) with
    | some r => some r
    | none => scanFirst f cs

/-- Does `lit` occur as a substring (JavaScript `String.prototype.includes`)? -/
def containsLit (lit : List Char) (cs : List Char) : Bool :=
  (scanFirst (fun s => matchLit lit s) cs).isSome

/-- Remainder just after the first occurrence of `lit`. -/
def dropThroughLit (lit : List Char) : List Char → Option (List Char)
  | [] => matchLit lit []
  | c :: cs =>
    match matchLit lit (c :: cs) with
    | some rest => some rest
    | none => dropThroughLit lit cs

/-- JavaScript `trim`: strip `isJsWs` characters from both ends. -/
def jsTrim (cs : List Char) : List Char :=
  ((cs.dropWhile isJsWs).reverse.dropWhile isJsWs).reverse

/-! ### JSON values and `JSON.parse`

`evaluateTask`'s first extraction strategy feeds brace-delimited substrings
to `JSON.parse`. We model JSON values and a parser for the JSON grammar
(whitespace, null/true/false, strings with escapes, numbers with optional
sign/fraction/exponent — stored truncated toward zero, which is
observationally equal for this program since every read goes through
`parseInt(String(x))` — objects with last-duplicate-key-wins lookup, and
arrays). -/

inductive Json where
  | null : Json
  | bool (b : Bool) : Json
  | num (i : Int) : Json
  | str (s : String) : Json
  | arr (l : List Json) : Json
  | obj (m : List (String × Json)) : Json

/-- JSON structural whitespace (space, tab, newline, carriage return). -/
def isJsonWs (c : Char) : Bool :=
  c = ' ' ∨ c = '\t' ∨ c = '\n' ∨ c = '\r'

/-- Parse one JSON string body (after the opening quote), handling the
escape sequences of the JSON grammar; raw control characters are
rejected as `JSON.parse` does. Returns the decoded characters and the
rest after the closing quote. -/
def parseJStr : Nat → List Char → Option (List Char × List Char)
  | 0, _ => none
  | _ + 1, [] => none
  | fuel + 1, c :: cs =>
    if c = '"' then some ([], cs)
    else if c = '\\' then
      match cs with
      | [] => none
      | e :: cs2 =>
        let dec : Option (Char × List Char) :=
          if e = '"' then some ('"', cs2)
          else if e = '\\' then some ('\\', cs2)
          else if e = '/' then some ('/', cs2)
          else if e = 'b' then some ('\x08', cs2)
          else if e = 'f' then some ('\x0c', cs2)
          else if e = 'n' then some ('\n', cs2)
          else if e = 'r' then some ('\r', cs2)
          else if e = 't' then some ('\t', cs2)
          else if e = 'u' then
            match cs2 with
            | h1 :: h2 :: h3 :: h4 :: cs3 =>
              let hexVal (h : Char) : Option Nat :=
                if isDig h then some (h.toNat - 48)
                else if 'a' ≤ h ∧ h ≤ 'f' then some (h.toNat - 87)
                else if 'A' ≤ h ∧ h ≤ 'F' then some (h.toNat - 55)
                else none
              match hexVal h1, hexVal h2, hexVal h3, hexVal h4 with
              | some a, some b, some c', some d =>
                some (Char.ofNat (((a * 16 + b) * 16 + c') * 16 + d), cs3)
              | _, _, _, _ => none
            | _ => none
          else none
        match dec with
        | some (ch, rest) =>
          match parseJStr fuel rest with
          | some (tail, rest2) => some (ch :: tail, rest2)
          | none => none
        | none => none
    else if c.toNat < 32 then none
    else
      match parseJStr fuel cs with
      | some (tail, rest2) => some (c :: tail, rest2)
      | none => none

/-- Parse a JSON number starting at the current position (first character
is a digit or a minus sign). The mathematical value is truncated toward
zero to an `Int`. -/
def parseJNum (cs : List Char) : Option (Int × List Char) :=
  let (negate, cs1) :=
    match cs with
    | c :: t => if c = '-' then (true, t) else (false, cs)
    | [] => (false, cs)
  let ipart : Option (List Char × List Char) :=
    match cs1 with
    | c :: t =>
      if c = '0' then some ([c], t)
      else if isDig c then some (c :: t.takeWhile isDig, t.dropWhile isDig)
      else none
    | [] => none
  match ipart with
  | none => none
  | some (ids, cs2) =>
    let fpart : Option (List Char × List Char) :=
      match cs2 with
      | c :: t =>
        if c = '.' then
          match t.takeWhile isDig with
          | [] => none
          | fd => some (fd, t.dropWhile isDig)
        else some ([], cs2)
      | [] => some ([], cs2)
    match fpart with
    | none => none
    | some (fds, cs3) =>
      let epart : Option (Int × List Char) :=
        match cs3 with
        | c :: t =>
          if c = 'e' ∨ c = 'E' then
            let (esign, t1) :=
              match t with
              | d :: t' =>
                if d = '-' then ((-1 : Int), t')
                else if d = '+' then ((1 : Int), t')
                else ((1 : Int), t)
              | [] => ((1 : Int), t)
            match t1.takeWhile isDig with
            | [] => none
            | eds => some (esign * (digitsToNat eds : Int), t1.dropWhile isDig)
          else some (0, cs3)
        | [] => some (0, cs3)
      match epart with
      | none => none
      | some (ex, cs4) =>
        let mantissa : Nat := digitsToNat (ids ++ fds)
        let scale : Int := ex - (fds.length : Int)
        let mag : Nat :=
          if 0 ≤ scale then mantissa * 10 ^ scale.toNat
          else mantissa / 10 ^ (-scale).toNat
        some (if negate then -(mag : Int) else (mag : Int), cs4)

mutual
/-- Parse one JSON value (consuming leading structural whitespace). -/
def parseJVal : Nat → List Char → Option (Json × List Char)
  | 0, _ => none
  | fuel + 1, cs =>
    match cs.dropWhile isJsonWs with
    | [] => none
    | c :: t =>
      if c = '"' then
        match parseJStr (t.length + 1) t with
        | some (body, rest) => some (Json.str (String.mk body), rest)
        | none => none
      else if c = 'n' then
        (matchLit ['u', 'l', 'l'] t).map (fun rest => (Json.null, rest))
      else if c = 't' then
        (matchLit ['r', 'u', 'e'] t).map (fun rest => (Json.bool true, rest))
      else if c = 'f' then
        (matchLit ['a', 'l', 's', 'e'] t).map (fun rest => (Json.bool false, rest))
      else if c = lb then
        match t.dropWhile isJsonWs with
        | d :: t2 =>
          if d = rb then some (Json.obj [], t2)
          else
            match parseJMembers fuel (d :: t2) with
            | some (m, rest) => some (Json.obj m, rest)
            | none => none
        | [] => none
      else if c = '[' then
        match t.dropWhile isJsonWs with
        | d :: t2 =>
          if d = ']' then some (Json.arr [], t2)
          else
            match parseJElems fuel (d :: t2) with
            | some (l, rest) => some (Json.arr l, rest)
            | none => none
        | [] => none
      else if c = '-' ∨ isDig c then
        (parseJNum (c :: t)).map (fun p => (Json.num p.1, p.2))
      else none

/-- Parse the (nonempty) member list of a JSON object, including the
closing brace. -/
def parseJMembers : Nat → List Char → Option (List (String × Json) × List Char)
  | 0, _ => none
  | fuel + 1, cs =>
    match cs.dropWhile isJsonWs with
    | c :: t =>
      if c = '"' then
        match parseJStr (t.length + 1) t with
        | some (key, rest) =>
          match rest.dropWhile isJsonWs with
          | d :: rest2 =>
            if d = ':' then
              match parseJVal fuel rest2 with
              | some (v, rest3) =>
                match rest3.dropWhile isJsonWs with
                | e :: rest4 =>
                  if e = ',' then
                    match parseJMembers fuel rest4 with
                    | some (m, rest5) => some ((String.mk key, v) :: m, rest5)
                    | none => none
                  else if e = rb then some ([(String.mk key, v)], rest4)
                  else none
                | [] => none
              | none => none
            else none
          | [] => none
        | none => none
      else none
    | [] => none

/-- Parse the (nonempty) element list of a JSON array, including the
closing bracket. -/
def parseJElems : Nat → List Char → Option (List Json × List Char)
  | 0, _ => none
  | fuel + 1, cs =>
    match parseJVal fuel cs with
    | some (v, rest) =>
      match rest.dropWhile isJsonWs with
      | e :: rest2 =>
        if e = ',' then
          match parseJElems fuel rest2 with
          | some (l, rest3) => some (v :: l, rest3)
          | none => none
        else if e = ']' then some ([v], rest2)
        else none
      | [] => none
    | none => none
end

/-- `JSON.parse` on a whole string: one value, trailing whitespace only. -/
def jsonParse (cs : List Char) : Option Json :=
  match parseJVal (cs.length + 1) cs with
  | some (v, rest) => if rest.dropWhile isJsonWs = [] then some v else none
  | none => none

/-! ### JavaScript value semantics used on parsed JSON -/

/-- Property lookup on a parsed JSON object: with duplicate keys the last
occurrence wins, as in a JavaScript object literal. -/
def jsGet (m : List (String × Json)) (k : String) : Option Json :=
  (m.reverse.find? (fun p => p.1 = k)).map (fun p => p.2)

/-- `value.key` access; non-objects have no own properties here. -/
def jsProp : Json → String → Option Json
  | .obj m, k => jsGet m k
  | _, _ => none

/-- JavaScript truthiness of a JSON value. -/
def jsTruthy : Json → Bool
  | .null => false
  | .bool b => b
  | .num i => i ≠ 0
  | .str s => s ≠ ""
  | .arr _ => true
  | .obj _ => true

mutual
/-- `String(value)` conversion; an array stringifies as its elements
joined by commas (`null` elements joining as empty strings), an object
as `[object Object]`. -/
def jsStr : Json → String
  | .null => "null"
  | .bool b => if b then "true" else "false"
  | .num i => toString i
  | .str s => s
  | .obj _ => "[object Object]"
  | .arr l => String.intercalate "," (jsStrElems l)

/-- Element-wise stringification inside an array (`Array.prototype.join`
turns `null` into the empty string). -/
def jsStrElems : List Json → List String
  | [] => []
  | .null :: t => "" :: jsStrElems t
  | j :: t => jsStr j :: jsStrElems t
end

/-- Hexadecimal digit test. -/
def isHexDig (c : Char) : Bool :=
  isDig c ∨ ('a' ≤ c ∧ c ≤ 'f') ∨ ('A' ≤ c ∧ c ≤ 'F')

/-- Value of a hex-digit list. -/
def hexToNat (ds : List Char) : Nat :=
  ds.foldl
    (fun a c =>
      a * 16 +
        (if isDig c then c.toNat - 48
         else if 'a' ≤ c ∧ c ≤ 'f' then c.toNat - 87
         else c.toNat - 55))
    0

/-- `parseInt(s)` with no radix argument: skip leading whitespace, an
optional sign, then either a `0x`/`0X` hexadecimal literal or a run of
decimal digits; `none` is NaN. -/
def parseIntStr (cs : List Char) : Option Int :=
  let s1 := cs.dropWhile isJsWs
  let sgn : Int :=
    match s1 with
    | c :: _ => if c = '-' then -1 else 1
    | [] => 1
  let s2 :=
    match s1 with
    | c :: t => if c = '-' ∨ c = '+' then t else s1
    | [] => s1
  let dec : List Char → Option Int := fun s =>
    match s.takeWhile isDig with
    | [] => none
    | ds => some (sgn * (digitsToNat ds : Int))
  match s2 with
  | z :: x :: t =>
    if z = '0' ∧ (x = 'x' ∨ x = 'X') then
      match t.takeWhile isHexDig with
      | [] => none
      | hs => some (sgn * (hexToNat hs : Int))
    else dec s2
  | _ => dec s2

/-- `parseInt(v)` on a property that may be absent: an absent property is
`undefined`, which stringifies to `"undefined"` and parses to NaN. -/
def parseIntOfProp (v : Option Json) : Option Int :=
  match v with
  | none => parseIntStr "undefined".toList
  | some j => parseIntStr (jsStr j).toList

/-! ### The five extraction strategies of `evaluateTask` (src/index.ts
lines 193-264) -/

/-- Non-brace span: `[^{}]*`. -/
def notBrace (c : Char) : Bool := ¬ (c = lb ∨ c = rb)

/-- Match the tail of the strategy-1 regex
`\{[^\x7b\x7d]*(?:\{[^\x7b\x7d]*\}[^\x7b\x7d]*)*\}` from a position where
the leading `\{[^\x7b\x7d]*` has been consumed (so the head is a brace or
the input ends). The `[^\x7b\x7d]*` runs are forced-maximal (shortening
one leaves a non-brace where a brace is required), so no further
backtracking is possible and one deterministic pass decides the match.
Returns the matched characters and the remainder. -/
def braceTail : Nat → List Char → Option (List Char × List Char)
  | 0, _ => none
  | _ + 1, [] => none
  | fuel + 1, c :: t =>
    if c = rb then some ([rb], t)
    else if c = lb then
      let b := t.takeWhile notBrace
      match t.dropWhile notBrace with
      | d :: r2 =>
        if d = rb then
          let a2 := r2.takeWhile notBrace
          match braceTail fuel (r2.dropWhile notBrace) with
          | some (m, rest) => some (lb :: (b ++ rb :: a2 ++ m), rest)
          | none => none
        else none
      | [] => none
    else none

/-- Try the strategy-1 regex at the current position. -/
def tryBrace (cs : List Char) : Option (List Char × List Char) :=
  match cs with
  | c :: t =>
    if c = lb then
      let a := t.takeWhile notBrace
      match braceTail (t.length + 1) (t.dropWhile notBrace) with
      | some (m, rest) => some (lb :: (a ++ m), rest)
      | none => none
    else none
  | [] => none

/-- All matches of the strategy-1 regex with the `g` flag: leftmost,
non-overlapping, resuming after each match. -/
def braceMatches : Nat → List Char → List (List Char)
  | 0, _ => []
  | _ + 1, [] => []
  | fuel + 1, c :: t =>
    match tryBrace (c :: t) with
    | some (m, rest) => m :: braceMatches fuel rest
    | none => braceMatches fuel t

/-- Strategy 1: feed each brace-delimited match to `JSON.parse`, keeping
the first that parses (the loop `try \{ JSON.parse(match); break \x7d`). -/
def strat1 (cs : List Char) : Option Json :=
  (braceMatches cs.length cs).findSome? jsonParse

/-- Try `"score"\s*:\s*(\d+)` at the current position (the `\s*` runs are
forced-maximal: a shorter run leaves a whitespace character where `:` or a
digit is required). -/
def scoreKeyAt (cs : List Char) : Option (List Char) :=
  match matchLit ('"' :: ('s' :: 'c' :: 'o' :: 'r' :: 'e' :: '"' :: [])) cs with
  | some r =>
    match r.dropWhile isJsWs with
    | c :: r2 =>
      if c = ':' then
        match (r2.dropWhile isJsWs).takeWhile isDig with
        | [] => none
        | ds => some ds
      else none
    | [] => none
  | none => none

/-- Leftmost match of `"score"\s*:\s*(\d+)`, returning the digit capture. -/
def findScoreKey (cs : List Char) : Option (List Char) :=
  scanFirst scoreKeyAt cs

/-- Try `"reason"\s*:\s*"([^"]+)"` at the current position (the capture
is forced-maximal and must be nonempty and followed by `"`). -/
def reasonKeyAt (cs : List Char) : Option (List Char) :=
  match matchLit ('"' :: ('r' :: 'e' :: 'a' :: 's' :: 'o' :: 'n' :: '"' :: [])) cs with
  | some r =>
    match r.dropWhile isJsWs with
    | c :: r2 =>
      if c = ':' then
        match r2.dropWhile isJsWs with
        | q :: r3 =>
          if q = '"' then
            match r3.takeWhile (fun d => d ≠ '"') with
            | [] => none
            | run =>
              match r3.dropWhile (fun d => d ≠ '"') with
              | _ :: _ => some run
              | [] => none
          else none
        | [] => none
      else none
    | [] => none
  | none => none

/-- Leftmost match of `"reason"\s*:\s*"([^"]+)"`. -/
def findReasonKey (cs : List Char) : Option (List Char) :=
  scanFirst reasonKeyAt cs

/-- Strategy 2 (src lines 211-223): accept only when BOTH the score and
the reason patterns match (`if (scoreMatch && reasonMatch)`). -/
def strat2 (cs : List Char) : Option (Nat × List Char) :=
  match findScoreKey cs, findReasonKey cs with
  | some ds, some rs => some (digitsToNat ds, rs)
  | _, _ => none

/-- The alternation `(?:score|点数|評価)` of the strategy-3 score pattern. -/
def scoreAlts3 : List (List Char) :=
  ["score".toList, "点数".toList, "評価".toList]

/-- The alternation `(?:score|点数)` of the strategy-5 score pattern. -/
def scoreAlts5 : List (List Char) :=
  ["score".toList, "点数".toList]

/-- The alternation `(?:reason|理由)` of the loose reason patterns. -/
def reasonAlts : List (List Char) :=
  ["reason".toList, "理由".toList]

/-- Try a loose score pattern `(?:…)[:\s]*(\d+)` (case-insensitive) at
the current position; the `[:\s]*` run is forced-maximal (a shorter run
leaves a `[:\s]` character where a digit is required). -/
def looseScoreAt (alts : List (List Char)) (cs : List Char) : Option (List Char) :=
  alts.findSome? (fun alt =>
    match matchLitCI alt cs with
    | some r =>
      match (r.dropWhile isColonWs).takeWhile isDig with
      | [] => none
      | ds => some ds
    | none => none)

/-- Leftmost match of a loose score pattern. -/
def findLooseScore (alts : List (List Char)) (cs : List Char) : Option (List Char) :=
  scanFirst (looseScoreAt alts) cs

/-- The capture class of the loose reason patterns: not a double quote,
single quote or newline. -/
def nonQNl (c : Char) : Bool := ¬ (c = '"' ∨ c = sq ∨ c = '\n')

/-- Try the suffix of the loose reason pattern (optional quote, then a
capture of at least 10 characters excluding quotes and newline, then an
optional quote) at a fixed position: the leading optional quote is
consumed greedily when present, the capture is the forced-maximal run and
must reach 10 characters (the trailing optional quote always succeeds). -/
def looseReasonTry (cs : List Char) : Option (List Char) :=
  match cs with
  | c :: t =>
    if c = '"' ∨ c = sq then
      let run := t.takeWhile nonQNl
      if 10 ≤ run.length then some run else none
    else
      let run := (c :: t).takeWhile nonQNl
      if 10 ≤ run.length then some run else none
  | [] => none

/-- Backtracking loop for a greedy `\s*`-like run feeding a follow-up
matcher: try at the maximal run first, then give characters back one at a
time (rightmost first), as the regex engine does. -/
def backtrackWs (f : List Char → Option α) : List Char → List Char → Option α
  | [], cs => f cs
  | p :: ps, cs =>
    match f cs with
    | some r => some r
    | none => backtrackWs f ps (p :: cs)

/-- Try a loose reason pattern (alternation, then a `[:\s]*` run, then
the optional-quote/capture suffix) at the current position. Unlike the
score patterns the `[:\s]*` run here is NOT forced-maximal: `:` and
space belong to the capture class, so the engine can give them back to
reach the 10-character minimum. -/
def looseReasonAt (alts : List (List Char)) (cs : List Char) : Option (List Char) :=
  alts.findSome? (fun alt =>
    match matchLitCI alt cs with
    | some r =>
      let pre := r.takeWhile isColonWs
      let after := r.dropWhile isColonWs
      match backtrackWs looseReasonTry pre.reverse after with
      | some run => some run
      | none => none
    | none => none)

/-- Leftmost match of a loose reason pattern. -/
def findLooseReason (alts : List (List Char)) (cs : List Char) : Option (List Char) :=
  scanFirst (looseReasonAt alts) cs

/-- Try the strategy-4 repair regex
`\{"score":\s*,\s*"reason":\s*"([^"]+)"\}` at the current position. -/
def repairAt (cs : List Char) : Option (List Char) :=
  match matchLit (lb :: "\"score\":".toList) cs with
  | none => none
  | some r1 =>
    match r1.dropWhile isJsWs with
    | c :: r3 =>
      if c = ',' then
        match matchLit "\"reason\":".toList (r3.dropWhile isJsWs) with
        | none => none
        | some r5 =>
          match r5.dropWhile isJsWs with
          | q :: r7 =>
            if q = '"' then
              match r7.takeWhile (fun d => d ≠ '"') with
              | [] => none
              | run =>
                match r7.dropWhile (fun d => d ≠ '"') with
                | _ :: e :: _ => if e = rb then some run else none
                | _ => none
            else none
          | [] => none
      else none
    | [] => none

/-- Leftmost match of the strategy-4 repair regex. -/
def repairFind (cs : List Char) : Option (List Char) :=
  scanFirst repairAt cs

/-- The literal `<think>`. -/
def thinkOpen : List Char := "<think>".toList

/-- The literal `</think>`. -/
def thinkClose : List Char := "</think>".toList

/-- `text.replace(/<think>[\s\S]*?<\/think>/g, '')`: each `<think>` and
the nearest later `</think>` are removed together with everything in
between; an unclosed `<think>` (and hence everything after it) stays. -/
def removeThink : Nat → List Char → List Char
  | 0, cs => cs
  | _ + 1, [] => []
  | fuel + 1, c :: t =>
    match matchLit thinkOpen (c :: t) with
    | some afterOpen =>
      match dropThroughLit thinkClose afterOpen with
      | some rest => removeThink fuel rest
      | none => c :: t
    | none => c :: removeThink fuel t

/-- Default reason of the loose strategies:
`` `${task.criterion}の評価を実行しました` ``. -/
def looseDefaultReason (criterion : String) : String :=
  criterion ++ "の評価を実行しました"

/-- Strategy 3 (src lines 225-239): loose score/reason extraction;
accepted on the score match alone, the reason capture is trimmed or
defaulted. -/
def strat3 (criterion : String) (cs : List Char) : Option (Int × String) :=
  match findLooseScore scoreAlts3 cs with
  | some ds =>
    some ((digitsToNat ds : Int),
      match findLooseReason reasonAlts cs with
      | some r => String.mk (jsTrim r)
      | none => looseDefaultReason criterion)
  | none => none

/-- Strategy 4 (src lines 241-250): the malformed-JSON repair capture. -/
def strat4 (cs : List Char) : Option (List Char) :=
  repairFind cs

/-- Strategy 5 (src lines 252-264): only when the raw text contains
`<think>`; strips the think spans, trims, and re-runs the loose
extraction (with the two-alternative score pattern). -/
def strat5 (criterion : String) (cs : List Char) : Option (Int × String) :=
  if containsLit thinkOpen cs then
    let clean := jsTrim (removeThink cs.length cs)
    match findLooseScore scoreAlts5 clean with
    | some ds =>
      some ((digitsToNat ds : Int),
        match findLooseReason reasonAlts clean with
        | some r => String.mk (jsTrim r)
        | none => looseDefaultReason criterion)
    | none => none
  else none

/-- `Math.floor(m * 0.6)`. On the maxScores this program constructs
(20 and 30) the IEEE-754 product rounds to the exact value, so the
rational floor `⌊3m/5⌋` coincides with the double computation. -/
def mathFloor06 (m : Int) : Int := (3 * m).fdiv 5

/-- The candidate the cascade hands to the final clamping step: either a
raw object from `JSON.parse` (strategy 1) or a directly constructed
`\x7bscore, reason\x7d` record (strategies 2-5). -/
inductive EvalCand where
  | fromJson (j : Json)
  | direct (score : Int) (reason : String)

/-- The whole parsing cascade of `evaluateTask` (src lines 193-264):
strategies tried in order, stopping at the first success. -/
def parseCascade (maxScore : Int) (criterion : String) (text : String) :
    Option EvalCand :=
  let cs := text.toList
  match strat1 cs with
  | some j => some (.fromJson j)
  | none =>
    match strat2 cs with
    | some (n, rs) => some (.direct (n : Int) (String.mk rs))
    | none =>
      match strat3 criterion cs with
      | some (n, r) => some (.direct n r)
      | none =>
        match strat4 cs with
        | some rs => some (.direct (mathFloor06 maxScore) (String.mk rs))
        | none =>
          match strat5 criterion cs with
          | some (n, r) => some (.direct n r)
          | none => none

/-! ### Data model (the zod schemas, as used at runtime) -/

/-- One evaluation task (`EvaluationTaskSchema`). The criterion is kept
as its runtime string; maxScore is an integer JavaScript number. -/
structure EvaluationTask where
  taskId : String
  criterion : String
  maxScore : Int
  description : String
deriving DecidableEq, Repr

/-- One per-criterion result (`EvaluationResultSchema`). -/
structure EvaluationResult where
  taskId : String
  criterion : String
  score : Int
  maxScore : Int
  reason : String
  success : Bool
  error : Option String
deriving DecidableEq, Repr

/-- The value returned by `evaluateHackathonIdea`. -/
structure HackathonEvaluationResult where
  tasks : List EvaluationTask
  results : List EvaluationResult
  finalScore : String
deriving DecidableEq, Repr

/-! ### `evaluateTask` (src lines 169-301) -/

/-- `parseInt(evaluation.score) || 0` (src line 267): for a strategy-1
object this is `parseInt` of the stringified `score` property (NaN and 0
both yield 0); for the directly built records of strategies 2-5 the score
is already an integer and `parseInt(String(n)) || 0 = n`. -/
def candScore : EvalCand → Int
  | .fromJson j => (parseIntOfProp (jsProp j "score")).getD 0
  | .direct n _ => n

/-- The fixed default reason of src line 275. -/
def noReasonDefault : String := "評価理由が提供されませんでした"

/-- `evaluation.reason || default` (src line 275): a missing or falsy
reason falls back to the default; a truthy one is stored (stringified at
use, which for the direct strategies is the string itself). -/
def candReason (d : String) : EvalCand → String
  | .fromJson j =>
    match jsProp j "reason" with
    | some v => if jsTruthy v then jsStr v else d
    | none => d
  | .direct _ r => if r = "" then d else r

/-- `Math.max(0, Math.min(maxScore, x))` (src line 267). -/
def clampScore (maxScore x : Int) : Int := max 0 (min maxScore x)

/-- The fixed suffix of the parse-failure fallback reason (src line 286). -/
def fallbackReasonSuffix : String :=
  "の評価中にレスポンス解析エラーが発生しましたが、中間的な評価を行いました。"

/-- `EvaluationWorker.evaluateTask`. The generation call is the external
input: `.ok text` is the awaited completion text, `.error msg` a thrown
exception with message `msg`. -/
def evaluateTask (task : EvaluationTask) (gen : Except String String) :
    EvaluationResult :=
  match gen with
  | .error msg =>
    { taskId := task.taskId
      criterion := task.criterion
      score := 0
      maxScore := task.maxScore
      reason := ""
      success := false
      error := some msg }
  | .ok text =>
    match parseCascade task.maxScore task.criterion text with
    | some ev =>
      { taskId := task.taskId
        criterion := task.criterion
        score := clampScore task.maxScore (candScore ev)
        maxScore := task.maxScore
        reason := candReason noReasonDefault ev
        success := true
        error := none }
    | none =>
      { taskId := task.taskId
        criterion := task.criterion
        score := task.maxScore.fdiv 2
        maxScore := task.maxScore
        reason := task.description ++ fallbackReasonSuffix
        success := true
        error := none }

/-! ### `EvaluationOrchestrator.createEvaluationTasks` (src lines 89-118) -/

/-- The four fixed tasks; `timestamp` is `Date.now()` shared by the batch. -/
def createEvaluationTasks (timestamp : Nat) : List EvaluationTask :=
  [ { taskId := "theme-match-" ++ toString timestamp
      criterion := "theme_match"
      maxScore := 20
      description := "テーマへの合致度（20点）: アイデアがテーマに沿っているか" },
    { taskId := "originality-" ++ toString timestamp
      criterion := "originality"
      maxScore := 30
      description := "アイデアの独創性（30点）: 他と差別化できるユニークさ" },
    { taskId := "tech-compatibility-" ++ toString timestamp
      criterion := "tech_compatibility"
      maxScore := 20
      description := "アイデアと技術の親和性（20点）: アイデアと技術の組み合わせの適切さ" },
    { taskId := "feasibility-" ++ toString timestamp
      criterion := "feasibility"
      maxScore := 30
      description := "実現可能性（30点）: 現実的な実装が可能か" } ]

/-! ### `EvaluationIntegrator.integrateEvaluations` (src lines 310-434) -/

/-- `results.find(r => r.criterion === c)`. -/
def findCrit (results : List EvaluationResult) (c : String) :
    Option EvaluationResult :=
  results.find? (fun r => r.criterion = c)

/-- `results.reduce((sum, result) => sum + result.score, 0)`
(src lines 318 and 399). -/
def totalScoreOf (results : List EvaluationResult) : Int :=
  results.foldl (fun s r => s + r.score) 0

/-- `x?.score || 0` on an optional result (0 is its own falsy fallback). -/
def optScore (o : Option EvaluationResult) : Int :=
  match o with
  | some r => if r.score = 0 then 0 else r.score
  | none => 0

/-- `x?.reason || '評価エラー'` on an optional result. -/
def optReason (o : Option EvaluationResult) : String :=
  match o with
  | some r => if r.reason = "" then "評価エラー" else r.reason
  | none => "評価エラー"

/-- Try `SCORE:\s*(\d+)` at the current position. -/
def scoreLineAt (cs : List Char) : Option (List Char) :=
  match matchLit "SCORE:".toList cs with
  | some r =>
    match (r.dropWhile isJsWs).takeWhile isDig with
    | [] => none
    | ds => some ds
  | none => none

/-- Leftmost match of `SCORE:\s*(\d+)` (src line 351). -/
def findScoreLine (cs : List Char) : Option (List Char) :=
  scanFirst scoreLineAt cs

/-- The lookahead `(?=\n|L1|…|$)`: holds at end of input, before a `\n`,
or where one of the literals starts. -/
def lookaheadOk (nexts : List (List Char)) (cs : List Char) : Bool :=
  match cs with
  | [] => true
  | c :: _ => c = '\n' ∨ nexts.any (fun l => (matchLit l cs).isSome)

/-- The lazy capture `(.+?)` bounded by a lookahead: grow one `.`-class
character at a time, stopping the first time the lookahead holds. -/
def lazyCapture (nexts : List (List Char)) : List Char → Option (List Char)
  | [] => none
  | c :: t =>
    if isDot c then
      if lookaheadOk nexts t then some [c]
      else
        match lazyCapture nexts t with
        | some run => some (c :: run)
        | none => none
    else none

/-- Try one labeled criterion pattern
(label, `\s*`, digit capture, `/NN点`, `\s*`, `理由:`, `\s*`, lazy reason
capture, lookahead) at the current position. The `\s*` runs before the
digits and before `理由:` are forced-maximal; the one before the lazy
capture backtracks (src lines 352-355). -/
def critFieldAt (label denom : List Char) (nexts : List (List Char))
    (cs : List Char) : Option (List Char × List Char) :=
  match matchLit label cs with
  | none => none
  | some r1 =>
    match (r1.dropWhile isJsWs).takeWhile isDig with
    | [] => none
    | ds =>
      match matchLit denom ((r1.dropWhile isJsWs).dropWhile isDig) with
      | none => none
      | some r2 =>
        match matchLit "理由:".toList (r2.dropWhile isJsWs) with
        | none => none
        | some r3 =>
          let pre := r3.takeWhile isJsWs
          let after := r3.dropWhile isJsWs
          match backtrackWs (lazyCapture nexts) pre.reverse after with
          | some run => some (ds, run)
          | none => none

/-- Leftmost match of one labeled criterion pattern. -/
def findCritField (label denom : List Char) (nexts : List (List Char))
    (cs : List Char) : Option (List Char × List Char) :=
  scanFirst (critFieldAt label denom nexts) cs

/-- `テーマへの合致度:\s*(\d+)\/20点\s*理由:\s*(.+?)(?=\n|アイデアの独創性|$)`. -/
def findThemeField (cs : List Char) : Option (List Char × List Char) :=
  findCritField "テーマへの合致度:".toList "/20点".toList
    ["アイデアの独創性".toList] cs

/-- `アイデアの独創性:\s*(\d+)\/30点\s*理由:\s*(.+?)(?=\n|アイデアと技術|$)`. -/
def findOriginalityField (cs : List Char) : Option (List Char × List Char) :=
  findCritField "アイデアの独創性:".toList "/30点".toList
    ["アイデアと技術".toList] cs

/-- `アイデアと技術の親和性:\s*(\d+)\/20点\s*理由:\s*(.+?)(?=\n|実現可能性|$)`. -/
def findTechField (cs : List Char) : Option (List Char × List Char) :=
  findCritField "アイデアと技術の親和性:".toList "/20点".toList
    ["実現可能性".toList] cs

/-- `実現可能性:\s*(\d+)\/30点\s*理由:\s*(.+?)(?=\n|$)`. -/
def findFeasibilityField (cs : List Char) : Option (List Char × List Char) :=
  findCritField "実現可能性:".toList "/30点".toList [] cs

/-- `formatEvaluationResult` (src lines 418-434), the fixed template. -/
def formatEvaluationResult (totalScore themeScore themeReason
    originalityScore originalityReason techScore techReason
    feasibilityScore feasibilityReason : String) : String :=
  "SCORE: " ++ totalScore ++
  "\n        テーマへの合致度: " ++ themeScore ++ "/20点 理由: " ++ themeReason ++
  "\n        アイデアの独創性: " ++ originalityScore ++ "/30点 理由: " ++ originalityReason ++
  "\n        アイデアと技術の親和性: " ++ techScore ++ "/20点 理由: " ++ techReason ++
  "\n        実現可能性: " ++ feasibilityScore ++ "/30点 理由: " ++ feasibilityReason

/-- `field ? field[k] : local` selection on an extracted pair. -/
def pickScore (m : Option (List Char × List Char)) (localScore : Int) : String :=
  match m with
  | some (ds, _) => String.mk ds
  | none => toString localScore

/-- Reason selection: the capture is trimmed; otherwise the local value. -/
def pickReason (m : Option (List Char × List Char)) (localReason : String) :
    String :=
  match m with
  | some (_, run) => String.mk (jsTrim run)
  | none => localReason

/-- `EvaluationIntegrator.integrateEvaluations`. The summarization
generation call is the external input `gen`: `.ok summaryText` is the
awaited summary, `.error` a thrown exception (the only fallible step in
the `try` block), taking the catch branch of src lines 391-412. -/
def integrateEvaluations (results : List EvaluationResult)
    (gen : Except String String) : String :=
  let themeMatch := findCrit results "theme_match"
  let originality := findCrit results "originality"
  let techCompatibility := findCrit results "tech_compatibility"
  let feasibility := findCrit results "feasibility"
  let totalScore := totalScoreOf results
  match gen with
  | .ok summaryText =>
    let cs := summaryText.toList
    let scoreM := findScoreLine cs
    let themeM := findThemeField cs
    let origM := findOriginalityField cs
    let techM := findTechField cs
    let feasM := findFeasibilityField cs
    formatEvaluationResult
      (match scoreM with
       | some ds => String.mk ds
       | none => toString totalScore)
      (pickScore themeM (optScore themeMatch))
      (pickReason themeM (optReason themeMatch))
      (pickScore origM (optScore originality))
      (pickReason origM (optReason originality))
      (pickScore techM (optScore techCompatibility))
      (pickReason techM (optReason techCompatibility))
      (pickScore feasM (optScore feasibility))
      (pickReason feasM (optReason feasibility))
  | .error _ =>
    formatEvaluationResult
      (toString totalScore)
      (toString (optScore themeMatch)) (optReason themeMatch)
      (toString (optScore originality)) (optReason originality)
      (toString (optScore techCompatibility)) (optReason techCompatibility)
      (toString (optScore feasibility)) (optReason feasibility)

/-! ### `MyAgent.evaluateHackathonIdea` (src lines 475-542) -/

/-- The fixed fallback task set of the catch branch (src lines 513-518). -/
def fallbackTasks : List EvaluationTask :=
  [ { taskId := "fallback-theme", criterion := "theme_match",
      maxScore := 20, description := "テーマへの合致度" },
    { taskId := "fallback-originality", criterion := "originality",
      maxScore := 30, description := "アイデアの独創性" },
    { taskId := "fallback-tech", criterion := "tech_compatibility",
      maxScore := 20, description := "技術親和性" },
    { taskId := "fallback-feasibility", criterion := "feasibility",
      maxScore := 30, description := "実現可能性" } ]

/-- The fallback results (src lines 520-528). -/
def fallbackResults (msg : String) : List EvaluationResult :=
  fallbackTasks.map (fun task =>
    { taskId := task.taskId
      criterion := task.criterion
      score := 0
      maxScore := task.maxScore
      reason := "評価中にエラーが発生しました。"
      success := false
      error := some msg })

/-- The fixed all-zero SCORE block (src lines 530-534). -/
def fallbackScore : String :=
  "SCORE: 0\nテーマへの合致度: 0/20点 理由: 評価中にエラーが発生しました" ++
  "\nアイデアの独創性: 0/30点 理由: 評価中にエラーが発生しました" ++
  "\nアイデアと技術の親和性: 0/20点 理由: 評価中にエラーが発生しました" ++
  "\n実現可能性: 0/30点 理由: 評価中にエラーが発生しました"

/-- `MyAgent.evaluateHackathonIdea`. External inputs: `orch` is whether
the surrounding orchestration throws before/during dispatch (`.error msg`
models a thrown exception caught at src line 511); `timestamp` is
`Date.now()`; `gens i` is the generation outcome of the i-th dispatched
task (`Promise.all` over `tasks.map` collects results in input order);
`summaryGen` is the summarization outcome. `evaluateTask` and
`integrateEvaluations` never throw, so `orch` is the only route into the
catch branch. -/
def evaluateHackathonIdea (orch : Except String Unit) (timestamp : Nat)
    (gens : Nat → Except String String)
    (summaryGen : Except String String) : HackathonEvaluationResult :=
  match orch with
  | .ok _ =>
    let tasks := createEvaluationTasks timestamp
    let results := tasks.enum.map (fun p => evaluateTask p.2 (gens p.1))
    { tasks := tasks
      results := results
      finalScore := integrateEvaluations results summaryGen }
  | .error msg =>
    { tasks := fallbackTasks
      results := fallbackResults msg
      finalScore := fallbackScore }

/-! ### Shared helper lemmas and sample inputs -/

/-- A sample 20-point task (the theme-match shape). -/
def sampleTask : EvaluationTask :=
  { taskId := "t", criterion := "theme_match", maxScore := 20,
    description := "d" }

/-- A sample 30-point task (the originality shape). -/
def origTask : EvaluationTask :=
  { taskId := "t2", criterion := "originality", maxScore := 30,
    description := "d2" }

/-- Wrap a string in braces (for building raw-model-text samples). -/
def sbrace (s : String) : String :=
  String.singleton lb ++ s ++ String.singleton rb

/-- Folding `+ score` over a list starting from `a` adds the sum of the
scores. -/
theorem foldl_add_score (l : List EvaluationResult) (a : Int) :
    l.foldl (fun s r => s + r.score) a = a + (l.map (fun r => r.score)).sum := by
  induction l generalizing a with
  | nil => simp
  | cons x t ih => simp [List.foldl_cons, ih]; ring

/-- Every `formatEvaluationResult` output starts with
`SCORE: <first argument>`. -/
theorem formatEvaluationResult_prefix (a b c d e f g h i : String) :
    ∃ rest, formatEvaluationResult a b c d e f g h i =
      "SCORE: " ++ a ++ rest := by
  refine ⟨"\n        テーマへの合致度: " ++ b ++ "/20点 理由: " ++ c ++
    "\n        アイデアの独創性: " ++ d ++ "/30点 理由: " ++ e ++
    "\n        アイデアと技術の親和性: " ++ f ++ "/20点 理由: " ++ g ++
    "\n        実現可能性: " ++ h ++ "/30点 理由: " ++ i, ?_⟩
  simp [formatEvaluationResult, String.append_assoc]

/-! ### Claims -/

/-- C1: every `EvaluationResult` produced by `evaluateTask` — successful
parse, parse-failure fallback, and thrown-exception path alike — has a
score between 0 and the task's maxScore (the program's tasks all have
nonnegative maxScore). -/
theorem C1_score_within_bounds (task : EvaluationTask)
    (gen : Except String String) (h : 0 ≤ task.maxScore) :
    0 ≤ (evaluateTask task gen).score ∧
    (evaluateTask task gen).score ≤ task.maxScore := by
  cases gen with
  | error msg => exact ⟨le_refl 0, h⟩
  | ok text =>
    cases hc : parseCascade task.maxScore task.criterion text with
    | some ev =>
      simp only [evaluateTask, hc, clampScore]
      exact ⟨le_max_left 0 _, max_le h (min_le_left _ _)⟩
    | none =>
      simp only [evaluateTask, hc]
      refine ⟨Int.fdiv_nonneg h (by norm_num), ?_⟩
      rw [Int.fdiv_eq_ediv _ (by norm_num)]
      exact Int.ediv_le_self 2 h

/-- Witness for C1 at a concrete task (maxScore 20) and raw text. -/
theorem C1_score_within_bounds_witness :
    0 ≤ sampleTask.maxScore ∧
    (0 ≤ (evaluateTask sampleTask (Except.ok "hello")).score ∧
     (evaluateTask sampleTask (Except.ok "hello")).score ≤ sampleTask.maxScore) :=
  ⟨by decide, C1_score_within_bounds sampleTask (Except.ok "hello") (by decide)⟩

/-- C2: the aggregator's `totalScore` (the reduce of src lines 318/399)
is exactly the integer sum of the scores, independent of the success
flags, and it is the number printed after `SCORE:` on the
exception-fallback path. -/
theorem C2_totalScore_is_sum (results : List EvaluationResult)
    (flip : EvaluationResult → Bool) (e : String) :
    totalScoreOf results = (results.map (fun r => r.score)).sum ∧
    totalScoreOf (results.map (fun r => { r with success := flip r })) =
      totalScoreOf results ∧
    ∃ rest, integrateEvaluations results (Except.error e) =
      "SCORE: " ++ toString (totalScoreOf results) ++ rest := by
  refine ⟨by simpa using foldl_add_score results 0, ?_, ?_⟩
  · show totalScoreOf _ = _
    simp only [totalScoreOf, foldl_add_score, List.map_map]
    rfl
  · obtain ⟨rest, hr⟩ := formatEvaluationResult_prefix
      (toString (totalScoreOf results))
      (toString (optScore (findCrit results "theme_match")))
      (optReason (findCrit results "theme_match"))
      (toString (optScore (findCrit results "originality")))
      (optReason (findCrit results "originality"))
      (toString (optScore (findCrit results "tech_compatibility")))
      (optReason (findCrit results "tech_compatibility"))
      (toString (optScore (findCrit results "feasibility")))
      (optReason (findCrit results "feasibility"))
    exact ⟨rest, hr⟩

/-- C4: when no extraction strategy matches, `evaluateTask` returns the
fallback result: score `⌊maxScore / 2⌋`, the fixed explanatory reason,
`success = true` and no error — a parse failure is never reported as an
error. -/
theorem C4_parse_failure_fallback (task : EvaluationTask) (text : String)
    (h : parseCascade task.maxScore task.criterion text = none) :
    evaluateTask task (Except.ok text) =
      { taskId := task.taskId
        criterion := task.criterion
        score := task.maxScore.fdiv 2
        maxScore := task.maxScore
        reason := task.description ++ fallbackReasonSuffix
        success := true
        error := none } := by
  simp only [evaluateTask, h]

/-- Witness for C4: on the raw text `hello` nothing matches and the
20-point task falls back to score 10 with the fixed reason. -/
theorem C4_parse_failure_fallback_witness :
    parseCascade sampleTask.maxScore sampleTask.criterion "hello" = none ∧
    evaluateTask sampleTask (Except.ok "hello") =
      { taskId := "t", criterion := "theme_match", score := 10,
        maxScore := 20, reason := "d" ++ fallbackReasonSuffix,
        success := true, error := none } :=
  ⟨rfl, C4_parse_failure_fallback sampleTask "hello" rfl⟩

/-- C9: a thrown exception before/during orchestration makes
`evaluateHackathonIdea` return (not throw) the complete fixed fallback
report: the fixed 4-criterion task set, four results with score 0,
`success = false`, the fixed reason and the exception message, and the
fixed all-zero SCORE block. -/
theorem C9_catastrophic_fallback (msg : String) (ts : Nat)
    (gens : Nat → Except String String) (sumGen : Except String String) :
    evaluateHackathonIdea (Except.error msg) ts gens sumGen =
      { tasks :=
          [ ⟨"fallback-theme", "theme_match", 20, "テーマへの合致度"⟩,
            ⟨"fallback-originality", "originality", 30, "アイデアの独創性"⟩,
            ⟨"fallback-tech", "tech_compatibility", 20, "技術親和性"⟩,
            ⟨"fallback-feasibility", "feasibility", 30, "実現可能性"⟩ ],
        results :=
          [ ⟨"fallback-theme", "theme_match", 0, 20,
              "評価中にエラーが発生しました。", false, some msg⟩,
            ⟨"fallback-originality", "originality", 0, 30,
              "評価中にエラーが発生しました。", false, some msg⟩,
            ⟨"fallback-tech", "tech_compatibility", 0, 20,
              "評価中にエラーが発生しました。", false, some msg⟩,
            ⟨"fallback-feasibility", "feasibility", 0, 30,
              "評価中にエラーが発生しました。", false, some msg⟩ ],
        finalScore :=
          "SCORE: 0\nテーマへの合致度: 0/20点 理由: 評価中にエラーが発生しました" ++
          "\nアイデアの独創性: 0/30点 理由: 評価中にエラーが発生しました" ++
          "\nアイデアと技術の親和性: 0/20点 理由: 評価中にエラーが発生しました" ++
          "\n実現可能性: 0/30点 理由: 評価中にエラーが発生しました" } := rfl

/-- The strict-JSON fragment `\x7b"score": 5, "reason": "ok"\x7d` used by the
C5 inputs. -/
def c5Json : String := sbrace "\"score\": 5, \"reason\": \"ok\""

/-- Its parsed value. -/
def c5JsonVal : Json :=
  Json.obj [("score", Json.num 5), ("reason", Json.str "ok")]

/-- C5 counterexample input: an earlier brace substring (`\x7b"a": 1\x7d`)
parses first, so the strict-JSON object carrying score and reason is
never the one the cascade uses. -/
def c5Text : String := sbrace "\"a\": 1" ++ " score 9 " ++ c5Json

/-- C5 witness input: the strict-JSON object is the first parseable
brace substring. -/
def c5AmendText : String := c5Json ++ " score 9"

/-- C5 counterexample: `c5Text` contains a parseable strict-JSON object
with score 5 and a reason key, and a loose score pattern carrying the
different number 9, yet the cascade's result scores 0 (strategy 1 keeps
the first parseable brace substring `\x7b"a": 1\x7d`, whose missing score
parses to NaN and is coerced to 0) — not the strict-JSON score 5. -/
theorem C5_counterexample :
    jsonParse c5Json.toList = some c5JsonVal ∧
    containsLit c5Json.toList c5Text.toList = true ∧
    (findLooseScore scoreAlts3 c5Text.toList).map digitsToNat = some 9 ∧
    (9 : Int) ≠ 5 ∧
    (evaluateTask sampleTask (Except.ok c5Text)).score = 0 ∧
    (0 : Int) ≠ 5 :=
  ⟨rfl, by decide, by decide, by decide, by decide, by decide⟩

/-- C5 (amended): when the FIRST parseable brace-delimited substring of
the raw text is the JSON object `j` — even in the presence of a loose
natural-language score pattern carrying a different number — the cascade
stops at strategy 1 with `j`, and the reported score is the one read off
`j` (clamped), because strategies are tried in fixed order from
strictest to loosest and the cascade stops at the first success. -/
theorem C5_strict_json_wins (task : EvaluationTask) (text : String)
    (j : Json) (n : List Char)
    (h1 : strat1 text.toList = some j)
    (h2 : findLooseScore scoreAlts3 text.toList = some n)
    (h3 : (digitsToNat n : Int) ≠ candScore (EvalCand.fromJson j)) :
    parseCascade task.maxScore task.criterion text =
      some (EvalCand.fromJson j) ∧
    (evaluateTask task (Except.ok text)).score =
      clampScore task.maxScore (candScore (EvalCand.fromJson j)) := by
  have hp : parseCascade task.maxScore task.criterion text =
      some (EvalCand.fromJson j) := by
    simp only [parseCascade, h1]
  exact ⟨hp, by simp only [evaluateTask, hp]⟩

/-- Witness for the amended C5: on `c5AmendText` the strict JSON is the
first parseable brace substring, the loose pattern carries 9 ≠ 5, and
the cascade reports the strict-JSON score 5. -/
theorem C5_strict_json_wins_witness :
    strat1 c5AmendText.toList = some c5JsonVal ∧
    findLooseScore scoreAlts3 c5AmendText.toList = some ['9'] ∧
    (digitsToNat ['9'] : Int) ≠ candScore (EvalCand.fromJson c5JsonVal) ∧
    (parseCascade sampleTask.maxScore sampleTask.criterion c5AmendText =
        some (EvalCand.fromJson c5JsonVal) ∧
      (evaluateTask sampleTask (Except.ok c5AmendText)).score =
        clampScore sampleTask.maxScore (candScore (EvalCand.fromJson c5JsonVal))) :=
  ⟨rfl, by decide, by decide,
    C5_strict_json_wins sampleTask c5AmendText c5JsonVal ['9'] rfl
      (by decide) (by decide)⟩

/-- C6 counterexample input: the `"score": <digits>` pattern matches but
no `"reason": "<text>"` pattern does. -/
def c6Text : String := "x \"score\": 5 y"

/-- C6 counterexample: on `c6Text` the field-regex score pattern matches
(capture `5`) and the reason pattern does not, yet strategy 2 does NOT
accept (src line 216 requires BOTH matches); no other strategy matches
either, so the task falls through to the parse-failure fallback
(score 10 = ⌊20/2⌋) instead of accepting score 5. -/
theorem C6_counterexample :
    findScoreKey c6Text.toList = some ['5'] ∧
    findReasonKey c6Text.toList = none ∧
    strat2 c6Text.toList = none ∧
    parseCascade sampleTask.maxScore sampleTask.criterion c6Text = none ∧
    (evaluateTask sampleTask (Except.ok c6Text)).score = 10 ∧
    (evaluateTask sampleTask (Except.ok c6Text)).reason =
      sampleTask.description ++ fallbackReasonSuffix :=
  ⟨by decide, by decide, by decide, rfl, by decide, by decide⟩

/-- C6 (amended): the field-regex strategy (strategy 2) accepts exactly
when BOTH the `"score": <digits>` pattern and the `"reason": "<text>"`
pattern match; a score match alone is not accepted. -/
theorem C6_strat2_requires_both (cs : List Char) :
    (∀ ds, findScoreKey cs = some ds → findReasonKey cs = none →
      strat2 cs = none) ∧
    (∀ ds rs, findScoreKey cs = some ds → findReasonKey cs = some rs →
      strat2 cs = some (digitsToNat ds, rs)) := by
  constructor
  · intro ds h1 h2
    simp only [strat2, h1, h2]
  · intro ds rs h1 h2
    simp only [strat2, h1, h2]

/-- Witness for the amended C6 at `c6Text`: score matches, reason does
not, strategy 2 rejects. -/
theorem C6_strat2_requires_both_witness :
    findScoreKey c6Text.toList = some ['5'] ∧
    findReasonKey c6Text.toList = none ∧
    strat2 c6Text.toList = none :=
  ⟨by decide, by decide,
    (C6_strat2_requires_both c6Text.toList).1 ['5'] (by decide) (by decide)⟩

/-- The C7 input `\x7b"score": , "reason": "x"\x7d`. -/
def c7Text : String := sbrace "\"score\": , \"reason\": \"x\""

/-- C7: when strategies 1-3 fail and the repair regex matches with
reason capture `rs`, the cascade yields the repair candidate:
score `⌊maxScore · 0.6⌋` paired with the extracted reason. -/
theorem C7_repair_strategy (maxScore : Int) (criterion : String)
    (text : String) (rs : List Char)
    (h1 : strat1 text.toList = none) (h2 : strat2 text.toList = none)
    (h3 : strat3 criterion text.toList = none)
    (h4 : strat4 text.toList = some rs) :
    parseCascade maxScore criterion text =
      some (EvalCand.direct (mathFloor06 maxScore) (String.mk rs)) := by
  simp only [parseCascade, h1, h2, h3, h4]

/-- Witness for C7, the claim's concrete instance: on
`\x7b"score": , "reason": "x"\x7d` with maxScore 30 the repair strategy
yields (18, "x"), and the final result carries score 18 and reason "x". -/
theorem C7_repair_strategy_witness :
    strat1 c7Text.toList = none ∧
    strat2 c7Text.toList = none ∧
    strat3 origTask.criterion c7Text.toList = none ∧
    strat4 c7Text.toList = some ['x'] ∧
    parseCascade origTask.maxScore origTask.criterion c7Text =
      some (EvalCand.direct 18 "x") ∧
    (evaluateTask origTask (Except.ok c7Text)).score = 18 ∧
    (evaluateTask origTask (Except.ok c7Text)).reason = "x" :=
  ⟨rfl, by decide, by decide, by decide,
    C7_repair_strategy origTask.maxScore origTask.criterion c7Text ['x']
      rfl (by decide) (by decide) (by decide),
    by decide, by decide⟩

/-- C8: in `integrateEvaluations`, a field whose regex fails to match
falls back to the locally computed value — when every regex fails the
normal-path report is exactly the exception-fallback report built from
local values only — and the SCORE field individually falls back to the
locally computed total whenever its regex fails, whatever the other
fields do. -/
theorem C8_regex_fallback_local :
    (∀ (results : List EvaluationResult) (s e : String),
      findScoreLine s.toList = none →
      findThemeField s.toList = none →
      findOriginalityField s.toList = none →
      findTechField s.toList = none →
      findFeasibilityField s.toList = none →
      integrateEvaluations results (Except.ok s) =
        integrateEvaluations results (Except.error e)) ∧
    (∀ (results : List EvaluationResult) (s : String),
      findScoreLine s.toList = none →
      ∃ rest, integrateEvaluations results (Except.ok s) =
        "SCORE: " ++ toString (totalScoreOf results) ++ rest) := by
  constructor
  · intro results s e h1 h2 h3 h4 h5
    simp only [integrateEvaluations, h1, h2, h3, h4, h5, pickScore,
      pickReason]
  · intro results s h1
    obtain ⟨rest, hr⟩ := formatEvaluationResult_prefix
      (toString (totalScoreOf results))
      (pickScore (findThemeField s.toList)
        (optScore (findCrit results "theme_match")))
      (pickReason (findThemeField s.toList)
        (optReason (findCrit results "theme_match")))
      (pickScore (findOriginalityField s.toList)
        (optScore (findCrit results "originality")))
      (pickReason (findOriginalityField s.toList)
        (optReason (findCrit results "originality")))
      (pickScore (findTechField s.toList)
        (optScore (findCrit results "tech_compatibility")))
      (pickReason (findTechField s.toList)
        (optReason (findCrit results "tech_compatibility")))
      (pickScore (findFeasibilityField s.toList)
        (optScore (findCrit results "feasibility")))
      (pickReason (findFeasibilityField s.toList)
        (optReason (findCrit results "feasibility")))
    refine ⟨rest, ?_⟩
    simp only [integrateEvaluations, h1]
    exact hr

/-- Witness for C8: on the summary text `x` every regex fails and the
report on the normal path equals the exception-fallback report. -/
theorem C8_regex_fallback_local_witness :
    findScoreLine "x".toList = none ∧
    findThemeField "x".toList = none ∧
    findOriginalityField "x".toList = none ∧
    findTechField "x".toList = none ∧
    findFeasibilityField "x".toList = none ∧
    integrateEvaluations [] (Except.ok "x") =
      integrateEvaluations [] (Except.error "err") :=
  ⟨by decide, by decide, by decide, by decide, by decide,
    (C8_regex_fallback_local).1 [] "x" "err" (by decide) (by decide)
      (by decide) (by decide) (by decide)⟩

/-- C10: when the `SCORE:` regex does match the model-generated summary,
the report's SCORE value is the extracted capture, not the locally
computed total; concretely, on the summary `SCORE: 7` over an empty
result set (local total 0) the report opens with `SCORE: 7` and differs
from the locally rebuilt report. -/
theorem C10_summary_score_overrides :
    (∀ (results : List EvaluationResult) (s : String) (ds : List Char),
      findScoreLine s.toList = some ds →
      ∃ rest, integrateEvaluations results (Except.ok s) =
        "SCORE: " ++ String.mk ds ++ rest) ∧
    (findScoreLine "SCORE: 7".toList = some ['7'] ∧
     totalScoreOf [] = 0 ∧
     integrateEvaluations [] (Except.ok "SCORE: 7") =
       "SCORE: 7" ++
       "\n        テーマへの合致度: 0/20点 理由: 評価エラー" ++
       "\n        アイデアの独創性: 0/30点 理由: 評価エラー" ++
       "\n        アイデアと技術の親和性: 0/20点 理由: 評価エラー" ++
       "\n        実現可能性: 0/30点 理由: 評価エラー" ∧
     integrateEvaluations [] (Except.ok "SCORE: 7") ≠
       integrateEvaluations [] (Except.error "e")) := by
  constructor
  · intro results s ds h1
    obtain ⟨rest, hr⟩ := formatEvaluationResult_prefix
      (String.mk ds)
      (pickScore (findThemeField s.toList)
        (optScore (findCrit results "theme_match")))
      (pickReason (findThemeField s.toList)
        (optReason (findCrit results "theme_match")))
      (pickScore (findOriginalityField s.toList)
        (optScore (findCrit results "originality")))
      (pickReason (findOriginalityField s.toList)
        (optReason (findCrit results "originality")))
      (pickScore (findTechField s.toList)
        (optScore (findCrit results "tech_compatibility")))
      (pickReason (findTechField s.toList)
        (optReason (findCrit results "tech_compatibility")))
      (pickScore (findFeasibilityField s.toList)
        (optScore (findCrit results "feasibility")))
      (pickReason (findFeasibilityField s.toList)
        (optReason (findCrit results "feasibility")))
    refine ⟨rest, ?_⟩
    simp only [integrateEvaluations, h1]
    exact hr
  · exact ⟨by decide, by decide, by decide, by decide⟩

/-- Witness for C10 on the summary `SCORE: 7` with an empty result set. -/
theorem C10_summary_score_overrides_witness :
    findScoreLine "SCORE: 7".toList = some ['7'] ∧
    ∃ rest, integrateEvaluations [] (Except.ok "SCORE: 7") =
      "SCORE: " ++ String.mk ['7'] ++ rest :=
  ⟨by decide,
    (C10_summary_score_overrides).1 [] "SCORE: 7" ['7'] (by decide)⟩

/-- C3: with one generation failure among the four dispatched tasks, the
batch still returns four results in original task order; the failing
slot carries `success = false`, score 0 and the exception message, every
other slot is exactly the result of its own successful evaluation, and —
for any task and outcome whatsoever — `success = false` happens exactly
on the thrown-exception path. -/
theorem C3_single_failure_isolation (ts : Nat) (i : Nat) (msg : String)
    (texts : Nat → String) (sumGen : Except String String)
    (gens : Nat → Except String String)
    (hi : i < 4) (hfail : gens i = Except.error msg)
    (hok : ∀ j, j ≠ i → gens j = Except.ok (texts j)) :
    (evaluateHackathonIdea (Except.ok ()) ts gens sumGen).results.length = 4 ∧
    (∀ j, j ≠ i →
      (evaluateHackathonIdea (Except.ok ()) ts gens sumGen).results[j]? =
        ((createEvaluationTasks ts)[j]?).map
          (fun t => evaluateTask t (Except.ok (texts j)))) ∧
    (∃ t, (createEvaluationTasks ts)[i]? = some t ∧
      (evaluateHackathonIdea (Except.ok ()) ts gens sumGen).results[i]? =
        some { taskId := t.taskId, criterion := t.criterion, score := 0,
               maxScore := t.maxScore, reason := "", success := false,
               error := some msg }) ∧
    (∀ (t : EvaluationTask) (o : Except String String),
      (evaluateTask t o).success = false ↔ ∃ m, o = Except.error m) := by
  refine ⟨rfl, ?_, ?_, ?_⟩
  · intro j hj
    match j with
    | 0 => simp [evaluateHackathonIdea, createEvaluationTasks, hok 0 hj]
    | 1 => simp [evaluateHackathonIdea, createEvaluationTasks, hok 1 hj]
    | 2 => simp [evaluateHackathonIdea, createEvaluationTasks, hok 2 hj]
    | 3 => simp [evaluateHackathonIdea, createEvaluationTasks, hok 3 hj]
    | (n + 4) => rfl
  · interval_cases i
    · refine ⟨_, rfl, ?_⟩
      simp [evaluateHackathonIdea, createEvaluationTasks, hfail]
      rfl
    · refine ⟨_, rfl, ?_⟩
      simp [evaluateHackathonIdea, createEvaluationTasks, hfail]
      rfl
    · refine ⟨_, rfl, ?_⟩
      simp [evaluateHackathonIdea, createEvaluationTasks, hfail]
      rfl
    · refine ⟨_, rfl, ?_⟩
      simp [evaluateHackathonIdea, createEvaluationTasks, hfail]
      rfl
  · intro t o
    cases o with
    | error m =>
      simp [evaluateTask]
    | ok text =>
      cases hc : parseCascade t.maxScore t.criterion text with
      | some ev => simp [evaluateTask, hc]
      | none => simp [evaluateTask, hc]

/-- The C3 witness generation outcomes: task 1 throws, the rest answer. -/
def c3gens : Nat → Except String String :=
  fun j => if j = 1 then Except.error "boom" else Except.ok "hello"

/-- Witness for C3: timestamp 0, failing index 1, message `boom`. -/
theorem C3_single_failure_isolation_witness :
    (1 < 4) ∧ c3gens 1 = Except.error "boom" ∧
    (∀ j, j ≠ 1 → c3gens j = Except.ok "hello") ∧
    ((evaluateHackathonIdea (Except.ok ()) 0 c3gens (Except.ok "s")).results.length = 4 ∧
     (∀ j, j ≠ 1 →
       (evaluateHackathonIdea (Except.ok ()) 0 c3gens (Except.ok "s")).results[j]? =
         ((createEvaluationTasks 0)[j]?).map
           (fun t => evaluateTask t (Except.ok "hello"))) ∧
     (∃ t, (createEvaluationTasks 0)[1]? = some t ∧
       (evaluateHackathonIdea (Except.ok ()) 0 c3gens (Except.ok "s")).results[1]? =
         some { taskId := t.taskId, criterion := t.criterion, score := 0,
                maxScore := t.maxScore, reason := "", success := false,
                error := some "boom" }) ∧
     (∀ (t : EvaluationTask) (o : Except String String),
       (evaluateTask t o).success = false ↔ ∃ m, o = Except.error m)) :=
  ⟨by norm_num, rfl, fun j hj => by simp [c3gens, hj],
    C3_single_failure_isolation 0 1 "boom" (fun _ => "hello")
      (Except.ok "s") c3gens (by norm_num) rfl
      (fun j hj => by simp [c3gens, hj])⟩

end ScoringAgent
